import Mathlib

/-!
Verification development for the Sherwood Generator (app.py).

The program drafts biographical CVs by querying several LLM providers
("interns"), normalizes each provider response into a uniform
text/sources record, and optionally reconciles successful drafts with
"editor" models through a deterministically built synthesis prompt.

This file embeds, from the source:
* the per-provider response-normalization functions (citation
  extraction, deduplication, sentinel handling) for the perplexity,
  google-grounding, openai-responses and anthropic adapter kinds;
* the drafter batch loop (app.py lines 245-484) including its
  exception-handler chain, the editor batch loop (lines 501-595), and
  the surrounding batch orchestration (progress accounting, the
  synthesis gate at line 496 and the final messages at lines 598-601);
* the synthesis prompt builder (lines 505-542).

Network calls are modelled as oracles: every provider invocation either
returns the normalized output values or raises a Python exception, and
the loop semantics is a function of those outcomes.  A detail that
matters below: app.py line 9 reads `from openai import OpenAI`, which
binds only the name `OpenAI`; the bare module name `openai` is never
bound, although the first except clause of both batch loops (lines 439
and 584) reads `except openai.APIStatusError`.  In Python, when the try
body raises, the class expression of an except clause is evaluated; if
that evaluation itself raises (here: NameError, unbound name), the
handler search is cancelled and the new exception propagates as if the
whole try statement had raised it, skipping the remaining clauses.
-/

namespace Sherwood

/-- Python exception classes relevant to the except clauses of app.py. -/
inductive ExcClass
  | apiStatusError
  | attributeError
  | otherError
deriving DecidableEq, Repr

/-- A raised Python exception: its class and its str() rendering. -/
structure PyExc where
  cls : ExcClass
  msg : String
deriving DecidableEq, Repr

/-- The value held by the `sources_text` variable: either a Python str,
or the return value of an `st.caption(...)` call (a Streamlit object,
not a str) whose message is shown in the UI. -/
inductive SourcesText
  | str (s : String)
  | caption (s : String)
deriving DecidableEq, Repr

/-- The coercion the loop applies wherever it stores or renders
`sources_text if isinstance(sources_text, str) else "No sources provided."`
(app.py lines 426, 428, 430). -/
def SourcesText.asStored : SourcesText → String
  | .str s => s
  | .caption _ => "No sources provided."

/-- One entry of `generated_cv_data` (a dict value at line 430):
the text and the stored sources string of one draft. -/
structure CVData where
  text : String
  sources : String
deriving DecidableEq, Repr

/-- Outcome of one provider invocation (the try body for one intern,
lines 260-437): either `output_text` and `sources_text` are produced,
or a Python exception is raised by the call. -/
inductive AdapterOutcome
  | ok (text : String) (sources : SourcesText)
  | raise (e : PyExc)
deriving DecidableEq, Repr

/-- The `type` field of `GENERATION_MODELS_OPTIONS` (lines 148-154). -/
inductive AdapterKind
  | perplexity
  | google_client_grounding
  | openai_responses_websearch
  | anthropic_websearch
deriving DecidableEq, Repr

/-- One selected drafter: its display name, whether its backing client is
configured (line 248 reads `if not model_details['client']`), its adapter
kind, the outcome of invoking its adapter, and the outcome of the
chat-completions fallback call of lines 451-455 were it ever invoked. -/
structure InternSpec where
  name : String
  configured : Bool
  kind : AdapterKind
  behavior : AdapterOutcome
  fallbackBehavior : AdapterOutcome
deriving DecidableEq, Repr

/-- Outcome of one editor invocation (the try body of lines 544-582). -/
inductive EditorOutcome
  | ok (text : String)
  | raise (e : PyExc)
deriving DecidableEq, Repr

/-- One selected editor model. -/
structure EditorSpec where
  name : String
  behavior : EditorOutcome
deriving DecidableEq, Repr

/-- The message the batch ends with when synthesis does not run:
`st.info` at line 599 or `st.error` at line 601. -/
inductive FinalNote
  | infoSkip
  | errorNoCVs
deriving DecidableEq, Repr

/-- The literal message text of each final note. -/
def FinalNote.text : FinalNote → String
  | .infoSkip => "One or fewer CVs were successfully generated, so no synthesis will be performed."
  | .errorNoCVs => "No CVs were generated. Please check model selections and API keys."

/-- Whether the final note is rendered through `st.error` (as opposed to
the informational `st.info`). -/
def FinalNote.isError : FinalNote → Bool
  | .infoSkip => false
  | .errorNoCVs => true

/-- The observable state accumulated by one batch run:
`combined_output_for_copying`, the `generated_cv_data` dict (as an
insertion-ordered association list), the progress counter
`current_step`, the providers whose adapter was actually invoked, the
providers for which the chat-completions fallback was invoked, the
editors actually invoked, every synthesis prompt built (line 542 is
executed once per editor iteration), and the final note. -/
structure BatchState where
  combined : String
  data : List (String × CVData)
  step : Nat
  internInvocations : List String
  fallbackInvocations : List String
  editorInvocations : List String
  promptsBuilt : List String
  note : Option FinalNote
deriving DecidableEq, Repr

/-- The state at the start of a batch (lines 238-241). -/
def initBatchState : BatchState :=
  { combined := ""
    data := []
    step := 0
    internInvocations := []
    fallbackInvocations := []
    editorInvocations := []
    promptsBuilt := []
    note := none }

/-- Result of running a loop or a whole batch: either the script reaches
the end of the block, or an unhandled Python exception propagates out of
it (aborting the Streamlit script run), with the state reached so far. -/
inductive RunOutcome
  | completed (st : BatchState)
  | aborted (exc : String) (st : BatchState)
deriving DecidableEq, Repr

/-- The state carried by a run outcome. -/
def RunOutcome.state : RunOutcome → BatchState
  | .completed st => st
  | .aborted _ st => st

/-- Names bound at module level of app.py by its import statements
(lines 1-12): they are `st` (streamlit), `os`, `time`, `telebot`,
`json`, `datetime`, `pytz`, `genai`, `OpenAI`, `Anthropic`, `Tool`,
`GenerationConfig`, `GoogleSearch`, `GenerateContentConfig` and
`st_copy_to_clipboard`.  Line 9 is `from openai import OpenAI`: it binds
only `OpenAI`.  No statement of the file binds the bare name `openai`,
so looking it up raises NameError.  (Later top-level assignments bind
further names such as `bot` and `client_openai`; none of them is
`openai`.) -/
def moduleImportNames : List String :=
  ["st", "os", "time", "telebot", "json", "datetime", "pytz", "genai",
   "OpenAI", "Anthropic", "Tool", "GenerationConfig", "GoogleSearch",
   "GenerateContentConfig", "st_copy_to_clipboard"]

/-- The str() rendering of the NameError raised when the unbound name
`openai` is looked up by the except clauses of lines 439 and 584. -/
def nameErrorOpenai : String := "NameError: name \x27openai\x27 is not defined"

/-- Python dict item assignment `d[k] = v`: replaces in place when the
key is present, appends otherwise (insertion order preserved). -/
def dictInsert (l : List (String × CVData)) (k : String) (v : CVData) :
    List (String × CVData) :=
  match l with
  | [] => [(k, v)]
  | (k0, v0) :: t => if k0 = k then (k, v) :: t else (k0, v0) :: dictInsert t k v

/-- The tagged block appended to `combined_output_for_copying` on a
successful draft (line 428). -/
def answerBlock (n text sources : String) : String :=
  "<answer_" ++ n ++ ">\n(CV from **" ++ n ++ "**)\n\n" ++ text ++ "\n\n" ++
    sources ++ "\n</answer_" ++ n ++ ">\n\n"

/-- The tagged block appended after a successful fallback draft (line 463). -/
def fallbackAnswerBlock (n text sources : String) : String :=
  "<answer_" ++ n ++ ">\n(CV from **" ++ n ++ "** - Fallback)\n\n" ++ text ++
    "\n\n" ++ sources ++ "\n</answer_" ++ n ++ ">\n\n"

/-- The tagged block appended when a draft errors (lines 445, 473, 479). -/
def errorAnswerBlock (n msg : String) : String :=
  "<answer_" ++ n ++ ">\n\nError generating CV with " ++ n ++ ": " ++ msg ++
    "\n\n</answer_" ++ n ++ ">\n\n"

/-- The tagged block appended when the fallback call also fails (line 469). -/
def fallbackFailedBlock (n msg : String) : String :=
  "<answer_" ++ n ++ ">\n\nError generating CV with " ++ n ++
    " (fallback failed): " ++ msg ++ "\n\n</answer_" ++ n ++ ">\n\n"

/-- The `sources_text` literal set by the fallback path (line 457). -/
def fallbackSourcesLine : String :=
  "Sources: (Fallback to standard chat) Information likely integrated from training data."

/-- Substring test, written through `String.splitOn`: `sub` occurs in `s`
exactly when splitting `s` on `sub` yields more than one piece.  Models
the Python `in` operator on strings (for nonempty `sub`). -/
def pyInStr (sub s : String) : Bool := (s.splitOn sub).length != 1

/-- The except-clause chain of the drafter loop (lines 439-480), run when
the try body raised `e`.  Clause 1 is `except openai.APIStatusError as e:`
(line 439); evaluating its class expression looks up the module-level
name `openai`, which is unbound, so the lookup raises NameError, the
handler search is cancelled, and the NameError propagates out of the
loop as if the whole try statement had raised it; the AttributeError
fallback clause (line 447) and the generic clause (line 477) are never
reached.  The branches below the name check transcribe those clauses as
written; they are unreachable because `openai` is not among the bound
module names. -/
def drafterHandle (sp : InternSpec) (e : PyExc) (s : BatchState) : RunOutcome :=
  if moduleImportNames.contains "openai" then
    match e.cls with
    | .apiStatusError =>
        .completed { s with
          combined := s.combined ++ errorAnswerBlock sp.name e.msg
          data := dictInsert s.data sp.name ⟨"Error: " ++ e.msg, "N/A due to error."⟩ }
    | .attributeError =>
        if pyInStr "object has no attribute \x27responses\x27" e.msg.toLower
            && decide (sp.kind = .openai_responses_websearch) then
          let s1 := { s with fallbackInvocations := s.fallbackInvocations ++ [sp.name] }
          match sp.fallbackBehavior with
          | .ok text _ =>
              .completed { s1 with
                combined := s1.combined ++ fallbackAnswerBlock sp.name text fallbackSourcesLine
                data := dictInsert s1.data sp.name ⟨text, fallbackSourcesLine⟩ }
          | .raise fe =>
              .completed { s1 with
                combined := s1.combined ++ fallbackFailedBlock sp.name fe.msg
                data := dictInsert s1.data sp.name
                  ⟨"Error (fallback failed): " ++ fe.msg, "N/A due to error."⟩ }
        else
          .completed { s with
            combined := s.combined ++ errorAnswerBlock sp.name e.msg
            data := dictInsert s.data sp.name ⟨"Error: " ++ e.msg, "N/A due to error."⟩ }
    | .otherError =>
        .completed { s with
          combined := s.combined ++ errorAnswerBlock sp.name e.msg
          data := dictInsert s.data sp.name ⟨"Error: " ++ e.msg, "N/A due to error."⟩ }
  else
    .aborted nameErrorOpenai s

/-- One iteration of the drafter loop (lines 245-484): skip when the
backing client is unconfigured (lines 248-253, progress still advanced);
otherwise invoke the adapter, record the result or run the handler
chain, then advance progress (lines 482-484, the increment sits outside
the try statement and is guarded by the existence of the progress bar). -/
def drafterStep (progress : Bool) (sp : InternSpec) (s : BatchState) : RunOutcome :=
  if sp.configured = false then
    .completed { s with step := if progress then s.step + 1 else s.step }
  else
    let s0 := { s with internInvocations := s.internInvocations ++ [sp.name] }
    let body : RunOutcome :=
      match sp.behavior with
      | .ok text sources =>
          .completed { s0 with
            combined := s0.combined ++ answerBlock sp.name text sources.asStored
            data := dictInsert s0.data sp.name ⟨text, sources.asStored⟩ }
      | .raise e => drafterHandle sp e s0
    match body with
    | .completed s1 => .completed { s1 with step := if progress then s1.step + 1 else s1.step }
    | .aborted m s1 => .aborted m s1

/-- The drafter loop over the ordered selection (line 245). -/
def runDrafters (progress : Bool) (specs : List InternSpec) (s : BatchState) :
    RunOutcome :=
  match specs with
  | [] => .completed s
  | sp :: rest =>
    match drafterStep progress sp s with
    | .completed s1 => runDrafters progress rest s1
    | .aborted m s1 => .aborted m s1

/-- Bool prefix test on character lists. -/
def listPrefixB : List Char → List Char → Bool
  | [], _ => true
  | _ :: _, [] => false
  | a :: as_, b :: bs => a == b && listPrefixB as_ bs

/-- Python `s.startswith(pre)`. -/
def pyStartsWith (s pre : String) : Bool := listPrefixB pre.data s.data

/-- `successfully_generated_cvs` (line 494): the entries of
`generated_cv_data` whose text does not start with "Error:". -/
def successOf (data : List (String × CVData)) : List (String × CVData) :=
  data.filter (fun e => !(pyStartsWith e.2.text "Error:"))

/-- The opening part of the synthesis instruction block (lines 506-524),
up to but not including the discrepancy-note directive of line 525.  The
subject name and the reference date are substituted here. -/
def synthInstrA (kp date : String) : String :=
  "You are an expert CV editor. Your task is to synthesize a single, comprehensive, and accurate CV for **" ++ kp ++ "** based on the multiple draft CVs provided below.\n\n" ++
  "Your goal is to produce a \x27Refreshed CV\x27 that is the best possible version, combining all valid information and resolving discrepancies where possible.\n\n" ++
  "Follow this structure for the Refreshed CV (ensure all 12 sections are present if information is available):\n" ++
  "1.  **NAME**: Full name of the individual.\n" ++
  "2.  **GOVERNMENT POSITION**: Current or most recent government position held. (If applicable, otherwise most recent significant professional role).\n" ++
  "3.  **COUNTRY**: The official name of the country they serve/worked in or are primarily associated with.\n" ++
  "4.  **BORN**: Date of birth.\n" ++
  "5.  **AGE**: Current age. (Calculated based on " ++ date ++ " and date of birth).\n" ++
  "6.  **MARITAL STATUS**: Information on marital status, including spouse and children if applicable.\n" ++
  "7.  **EDUCATION**: Chronological list of educational achievements (PERIOD, INSTITUTION, DEGREE).\n" ++
  "8.  **CAREER**: Detailed account of the individual\x27s career (YEAR and POSITION).\n" ++
  "9.  **OTHER APPOINTMENTS**: List of other significant appointments.\n" ++
  "10. **AWARDS and DECORATIONS**: List of awards and decorations.\n" ++
  "11. **LANGUAGES**: Languages spoken.\n" ++
  "12. **REMARKS**: Any additional noteworthy information.\n\n" ++
  "Instructions for Reconciling and Synthesizing:\n" ++
  "-   Combine information from all provided CVs to make the Refreshed CV as complete as possible.\n" ++
  "-   If different CVs provide different information for the same field (e.g., different dates for a job, different university names for the same degree period), try to determine the most likely correct information. If multiple sources agree on one version, prefer that.\n" ++
  "-   **Crucially, if you encounter conflicting information that cannot be definitively resolved, or if you make a choice between conflicting pieces of information, you MUST indicate this in the Refreshed CV.**\n"

/-- The discrepancy-note directive of line 525: the instruction block
directs the editor NOT to name the contributing provider models and to
use generic phrasing in conflict notes. -/
def synthNoNamingDirective : String :=
  "    -   When noting a discrepancy, **DO NOT mention the names of the AI models (e.g., Sonar, Gemini, Optima, Claude) that provided the conflicting information.** Instead, use general phrasing.\n"

/-- The remainder of the fixed instruction text (lines 526-533): the
rephrasing examples and the closing reconciliation rules. -/
def synthInstrB : String :=
  "    -   For example, instead of: \"*2018-2022: Chief Technology Officer, Innovate Corp. (Note: Discrepancy in end year; Sonar reported 2022, Deepseek reported 2023)*\"\n" ++
  "    -   Rephrase to: \"*2018-2022: Chief Technology Officer, Innovate Corp. (Note: Discrepancy in end year; initial drafts showed 2022 vs. 2023)*\"\n" ++
  "    -   Or, instead of: \"*Education: MSc in Advanced Computing (Source: Gemini) / Master of Science in Computer Engineering (Source: Optima) from Tech University, 2015-2017.*\"\n" ++
  "    -   Rephrase to: \"*Education: MSc in Advanced Computing / Master of Science in Computer Engineering from Tech University, 2015-2017 (Note: Degree name varied across initial drafts).*\"\n" ++
  "-   Ensure dates, positions, and achievements are accurately represented based on the consensus or noted discrepancies.\n" ++
  "-   If one CV provides more detail for a specific role or achievement, incorporate that richer detail.\n" ++
  "-   Omit any redundant information if multiple CVs state the exact same fact.\n" ++
  "-   The final output should be ONLY the complete \x27Refreshed CV\x27 with inline notes for discrepancies. Do not add any other commentary before or after the CV.\n\n"

/-- The provenance line (line 534): the display names of the contributing
providers joined by ", " in the order of `successfully_generated_cvs`. -/
def provenanceLine (names : List String) : String :=
  "The draft CVs were generated by the following models: " ++
    String.intercalate ", " names ++ ".\n"

/-- The trailing fixed instruction text (lines 535-536). -/
def synthInstrC : String :=
  "The CVs are contained in the tags below. Your task is to synthesize them into one CV, rephrasing any discrepancy notes to be generic, without mentioning the source model names in the notes.\n\n" ++
  "Here are the draft CVs:\n\n"

/-- One tagged draft block of the synthesis prompt (line 540). -/
def synthBlock (n : String) (d : CVData) : String :=
  "<answer_" ++ n ++ ">\n(CV from **" ++ n ++ "**)\n\n--- CV Start ---\n" ++
    d.text ++ "\n--- CV End ---\n\n--- Sources listed by " ++ n ++ " ---\n" ++
    d.sources ++ "\n--- Sources End ---\n\n</answer_" ++ n ++ ">\n\n"

/-- `final_synthesis_prompt` (lines 505-542): the join of the instruction
block, the provenance line, and one tagged block per Success draft, in
the order of `successfully_generated_cvs`.  It is a pure function of the
subject name, the reference date (fetched once, before the editor loop,
at line 499) and the ordered Success entries. -/
def buildSynthesisPrompt (kp date : String) (successes : List (String × CVData)) :
    String :=
  synthInstrA kp date ++ synthNoNamingDirective ++ synthInstrB ++
    provenanceLine (successes.map Prod.fst) ++ synthInstrC ++
    String.join (successes.map (fun p => synthBlock p.1 p.2))

/-- One iteration of the editor loop (lines 501-595): the synthesis
prompt is built (lines 505-542, before the try statement), the editor is
invoked; an exception raised by the invocation reaches the clause
`except openai.APIStatusError as e:` of line 584, whose class expression
raises NameError exactly as in the drafter loop, aborting the script;
otherwise progress advances (lines 593-595).  The handler bodies of
lines 584-591 only display messages and change none of the tracked
state. -/
def editorStep (progress : Bool) (kp date : String)
    (successes : List (String × CVData)) (ed : EditorSpec) (s : BatchState) :
    RunOutcome :=
  let s0 := { s with
    promptsBuilt := s.promptsBuilt ++ [buildSynthesisPrompt kp date successes]
    editorInvocations := s.editorInvocations ++ [ed.name] }
  match ed.behavior with
  | .ok _ => .completed { s0 with step := if progress then s0.step + 1 else s0.step }
  | .raise _ =>
      if moduleImportNames.contains "openai" then
        .completed { s0 with step := if progress then s0.step + 1 else s0.step }
      else
        .aborted nameErrorOpenai s0

/-- The editor loop over the selected editors (line 501). -/
def runEditors (progress : Bool) (kp date : String)
    (successes : List (String × CVData)) (eds : List EditorSpec)
    (s : BatchState) : RunOutcome :=
  match eds with
  | [] => .completed s
  | ed :: rest =>
    match editorStep progress kp date successes ed s with
    | .completed s1 => runEditors progress kp date successes rest s1
    | .aborted m s1 => .aborted m s1

/-- `total_steps` (line 233): the number of selected drafters, plus the
number of selected editors when more than one drafter is selected and
the editor selection is non-empty. -/
def totalSteps (interns : List InternSpec) (editors : List EditorSpec) : Nat :=
  interns.length +
    (if 1 < interns.length ∧ editors ≠ [] then editors.length else 0)

/-- One whole batch run (lines 231-605): the drafter loop, then the
synthesis gate of line 496 (`if len(successfully_generated_cvs) > 1 and
Editor_Select:`), the editor loop, or one of the final messages of
lines 598-601.  The progress bar exists exactly when `total_steps > 0`
(line 235). -/
def runBatch (kp date : String) (interns : List InternSpec)
    (editors : List EditorSpec) : RunOutcome :=
  let progress : Bool := totalSteps interns editors != 0
  match runDrafters progress interns initBatchState with
  | .aborted m s => .aborted m s
  | .completed s =>
    let successes := successOf s.data
    if 1 < successes.length ∧ editors ≠ [] then
      runEditors progress kp date successes editors s
    else if successes.length ≤ 1 ∧ s.combined ≠ "" then
      .completed { s with note := some .infoSkip }
    else if s.combined = "" then
      .completed { s with note := some .errorNoCVs }
    else
      .completed s

/-- Drops leading whitespace characters from a character list. -/
def dropLeadingWs : List Char → List Char
  | [] => []
  | c :: t => if c.isWhitespace then dropLeadingWs t else c :: t

/-- Python `str.strip()`: leading and trailing whitespace removed.
(Python strips any Unicode whitespace; for the ASCII content handled
here the difference is immaterial.) -/
def pyStrip (s : String) : String :=
  ⟨(dropLeadingWs (dropLeadingWs s.data).reverse).reverse⟩

/-- Python truthiness of an optional string field: the attribute is
present and its value is a non-empty string. -/
def optStrTruthy : Option String → Bool
  | some s => !s.isEmpty
  | none => false

/-- A raw citation entry of a perplexity response: the code checks
`isinstance(c_url, str)` (line 281), so entries may be non-strings. -/
inductive PyVal
  | str (s : String)
  | other
deriving DecidableEq, Repr

/-- The citation-bearing parts of a perplexity chat response.
`citations` is `none` when the attribute is absent or `None`; the
present-but-empty list is falsy as well (line 273 reads
`hasattr(response, 'citations') and response.citations`).
`modelExtraCitations` is the value of `response.model_extra.get('citations', [])`,
with `[]` also covering an absent or non-dict `model_extra` (line 276
defaults to `[]`). -/
structure PerplexityResponse where
  citations : Option (List PyVal)
  modelExtraCitations : List PyVal
deriving DecidableEq, Repr

/-- `processed_citations` (lines 272-276): the top-level citations when
truthy, else the extension-bag citations. -/
def perplexityProcessed (r : PerplexityResponse) : List PyVal :=
  match r.citations with
  | some l => if l.isEmpty then r.modelExtraCitations else l
  | none => r.modelExtraCitations

/-- The rendered markdown line for one citation URL (lines 282, 309, 354,
401 all use the same "- [title](url)" shape; for perplexity the URL
serves as both). -/
def renderUrlLine (u : String) : String := "- [" ++ u ++ "](" ++ u ++ ")"

/-- `sources_list` of the perplexity branch (lines 279-282): one rendered
line per entry that is a string with non-blank content. -/
def perplexitySourcesList (r : PerplexityResponse) : List String :=
  (perplexityProcessed r).filterMap (fun v =>
    match v with
    | .str u => if (pyStrip u).isEmpty then none else some (renderUrlLine u)
    | .other => none)

/-- The rendered, de-duplicated line list: `list(set(sources_list))` of
line 284.  CPython enumerates a set in an unspecified order; `dedup`
(one copy of each line) is one admissible enumeration. -/
def perplexityDisplayList (r : PerplexityResponse) : List String :=
  (perplexitySourcesList r).dedup

/-- The header of the perplexity source list (line 284). -/
def perplexityHeader : String :=
  "Sources (Note: The numbering of these URLs corresponds to the order they were provided by the API and may not directly match the inline citation numbers like [1], [2] inserted by the model in the text above):\n"

/-- The initialization of `sources_text` at line 257, kept whenever no
branch overwrites it. -/
def defaultSourcesLine : String :=
  "Sources: Not applicable or not provided by this model."

/-- The caption message of lines 286 and 411. -/
def noCitableSourcesCaption : String :=
  "No citable sources were provided by this model for this output."

/-- `sources_text` after the perplexity branch (lines 272-286): joined
de-duplicated lines when any rendered line exists; the line-257 default
when citations were processed but none rendered; the caption object when
no citations were found at all. -/
def perplexitySourcesText (r : PerplexityResponse) : SourcesText :=
  if (perplexityProcessed r).isEmpty then
    .caption noCitableSourcesCaption
  else if (perplexitySourcesList r).isEmpty then
    .str defaultSourcesLine
  else
    .str (perplexityHeader ++ String.intercalate "\n" (perplexityDisplayList r))

/-- The `web` attribute of a grounding chunk (title and uri may each be
absent or empty). -/
structure WebRef where
  title : Option String
  uri : Option String
deriving DecidableEq, Repr

/-- One grounding chunk; `web = none` covers the chunk lacking the
attribute or it being falsy (line 311 reads
`hasattr(chunk, 'web') and chunk.web`). -/
structure GroundingChunk where
  web : Option WebRef
deriving DecidableEq, Repr

/-- The grounding metadata of the first candidate; `grounding_chunks`
is `none` when falsy (line 307). -/
structure GroundingMetadata where
  grounding_chunks : Option (List GroundingChunk)
deriving DecidableEq, Repr

/-- The citation-bearing part of a google grounded-generation response:
`firstCandidateGroundingMetadata = none` covers an empty candidate list
or falsy grounding metadata (line 304 reads
`if response.candidates and response.candidates[0].grounding_metadata:`). -/
structure GoogleResponse where
  firstCandidateGroundingMetadata : Option GroundingMetadata
deriving DecidableEq, Repr

/-- `sources_list` of the google branch (lines 306-312): one rendered
line per chunk carrying a web reference with truthy uri and title;
chunks lacking either are skipped. -/
def googleSourcesList (r : GoogleResponse) : List String :=
  match r.firstCandidateGroundingMetadata with
  | none => []
  | some gm =>
    (gm.grounding_chunks.getD []).filterMap (fun ch =>
      match ch.web with
      | some w =>
          if optStrTruthy w.uri && optStrTruthy w.title then
            some ("- [" ++ w.title.getD "" ++ "](" ++ w.uri.getD "" ++ ")")
          else none
      | none => none)

/-- `list(set(sources_list))` of line 314. -/
def googleDisplayList (r : GoogleResponse) : List String :=
  (googleSourcesList r).dedup

/-- The caption message of line 316. -/
def noGroundingSourcesCaption : String :=
  "No citable grounding sources were provided by this model for this output."

/-- `sources_text` after the google branch (lines 304-316). -/
def googleSourcesText (r : GoogleResponse) : SourcesText :=
  match r.firstCandidateGroundingMetadata with
  | none => .caption noGroundingSourcesCaption
  | some _ =>
    if (googleSourcesList r).isEmpty then
      .str defaultSourcesLine
    else
      .str ("Grounding Sources:\n" ++
        String.intercalate "\n" (googleDisplayList r))

/-- One annotation of an openai responses content item; `url` and
`title` are `none` when the attribute is absent (lines 351-353 check
`hasattr` and truthiness for each). -/
structure UrlCitationAnn where
  type : String
  url : Option String
  title : Option String
deriving DecidableEq, Repr

/-- One content item of an openai responses message item;
`anns = none` covers an absent or falsy `annotations` attribute
(line 349). -/
structure ResponseContentItem where
  type : String
  anns : Option (List UrlCitationAnn)
deriving DecidableEq, Repr

/-- One item of `response.output`; `content = none` covers an absent or
falsy `content` attribute (line 346). -/
structure ResponseOutputItem where
  type : String
  content : Option (List ResponseContentItem)
deriving DecidableEq, Repr

/-- The citation-bearing parts of an openai responses response:
`output = none` covers an absent or `None` output attribute (line 343
reads `if hasattr(response, 'output') and response.output:`, and line
358 reads `response.output or []`); `rawDebugStr` is
`raw_response_for_debug_str` (lines 335-341). -/
structure OpenAIResponse where
  output : Option (List ResponseOutputItem)
  rawDebugStr : String
deriving DecidableEq, Repr

/-- `openai_sources_list` (lines 343-354): the rendered lines of every
url_citation annotation with truthy url and title, found in output_text
content items of message output items. -/
def openaiSourcesList (r : OpenAIResponse) : List String :=
  ((r.output.getD []).map (fun item =>
    if item.type = "message" then
      ((item.content.getD []).map (fun ci =>
        if ci.type = "output_text" then
          (ci.anns.getD []).filterMap (fun a =>
            if a.type = "url_citation" && optStrTruthy a.url && optStrTruthy a.title then
              some ("- [" ++ a.title.getD "" ++ "](" ++ a.url.getD "" ++ ")")
            else none)
        else [])).flatten
    else [])).flatten

/-- `list(set(openai_sources_list))` of line 357. -/
def openaiDisplayList (r : OpenAIResponse) : List String :=
  (openaiSourcesList r).dedup

/-- Whether a web-search-call item is present in the output (line 358). -/
def openaiWebSearchCallPresent (r : OpenAIResponse) : Bool :=
  (r.output.getD []).any (fun item => item.type == "web_search_call")

/-- The sentinel of line 359. -/
def openaiToolUsedLine : String :=
  "Sources (OpenAI Optima): Web search tool was utilized. No specific citable annotations found in the response."

/-- The debug suffix appended at lines 361 and 365. -/
def debugSuffix (raw : String) : String :=
  "\n\n*Debug: OpenAI \x60response\x60 object structure:*\n\x60\x60\x60json\n" ++
    raw ++ "\n\x60\x60\x60"

/-- The value of `sources_text` after the openai branch (lines 356-365):
a str in the cited and tool-used branches; in the remaining branch the
caption object, turned into a str by `str(sources_text) + debug` at line
365 when the raw debug string is non-empty (the resulting prefix is the
str() rendering of a Streamlit object, internal to that library, so it
is kept abstract). -/
inductive OpenAISourcesValue
  | str (s : String)
  | caption
  | captionStrPlusDebug (debug : String)
deriving DecidableEq, Repr

/-- `sources_text` after the openai branch (lines 356-365). -/
def openaiSourcesText (r : OpenAIResponse) : OpenAISourcesValue :=
  if !(openaiSourcesList r).isEmpty then
    .str ("Sources (OpenAI Optima):\n" ++
      String.intercalate "\n" (openaiDisplayList r))
  else if openaiWebSearchCallPresent r then
    .str (openaiToolUsedLine ++
      (if r.rawDebugStr.isEmpty then "" else debugSuffix r.rawDebugStr))
  else if r.rawDebugStr.isEmpty then
    .caption
  else
    .captionStrPlusDebug (debugSuffix r.rawDebugStr)

/-- One citation attached to an anthropic content block; url and title
may be absent (line 400 checks `hasattr` and truthiness for both). -/
structure AnthropicCitation where
  url : Option String
  title : Option String
deriving DecidableEq, Repr

/-- One content block of an anthropic response; `citations = none`
covers the attribute being absent or falsy (line 398). -/
structure AnthropicBlock where
  type : String
  text : String
  citations : Option (List AnthropicCitation)
deriving DecidableEq, Repr

/-- An anthropic messages response: its content blocks and stop reason. -/
structure AnthropicResponse where
  content : List AnthropicBlock
  stop_reason : String
deriving DecidableEq, Repr

/-- `parsed_output_text` (lines 392-397): the text of every text-typed
content block, in order, each followed by a newline. -/
def anthropicParsedText (r : AnthropicResponse) : String :=
  r.content.foldl
    (fun acc b => if b.type = "text" then acc ++ b.text ++ "\n" else acc) ""

/-- `sources_list` of the anthropic branch (lines 393-401): the rendered
lines of the citations attached to text-typed blocks, url and title both
truthy. -/
def anthropicSourcesList (r : AnthropicResponse) : List String :=
  r.content.foldl
    (fun acc b =>
      if b.type = "text" then
        acc ++ ((b.citations.getD []).filterMap (fun c =>
          if optStrTruthy c.url && optStrTruthy c.title then
            some ("- [" ++ c.title.getD "" ++ "](" ++ c.url.getD "" ++ ")")
          else none))
      else acc) []

/-- `list(set(sources_list))` of line 409. -/
def anthropicDisplayList (r : AnthropicResponse) : List String :=
  (anthropicSourcesList r).dedup

/-- `sources_text` after the anthropic branch (lines 408-411). -/
def anthropicSourcesText (r : AnthropicResponse) : SourcesText :=
  if (anthropicSourcesList r).isEmpty then
    .caption noCitableSourcesCaption
  else
    .str ("Cited Sources:\n" ++ String.intercalate "\n" (anthropicDisplayList r))

/-- The initialization of `output_text` at line 256. -/
def modelDefaultText (internName : String) : String :=
  "Model " ++ internName ++ " did not return a text response."

/-- The sentinel of line 406. -/
def anthropicSentinel : String :=
  "Model used web search, but did not provide a direct text response in the first part. This might indicate a multi-step process is expected."

/-- `output_text` after the anthropic branch (lines 256 and 392-406):
the stripped concatenation of the text blocks when non-blank, otherwise
the line-256 default; the line-405 condition
`if not output_text and response.stop_reason == 'tool_use' and not
parsed_output_text.strip():` is then evaluated on that value. -/
def anthropicOutputText (internName : String) (r : AnthropicResponse) : String :=
  let parsed := pyStrip (anthropicParsedText r)
  let out1 := if !parsed.isEmpty then parsed else modelDefaultText internName
  if out1.isEmpty && (r.stop_reason == "tool_use") && parsed.isEmpty then
    anthropicSentinel
  else
    out1

/-- Whether an adapter invocation returned without raising. -/
def AdapterOutcome.isOkB : AdapterOutcome → Bool
  | .ok _ _ => true
  | .raise _ => false

/-- The output text of a non-raising invocation (junk on raise). -/
def AdapterOutcome.okText : AdapterOutcome → String
  | .ok t _ => t
  | .raise _ => ""

/-- The sources value of a non-raising invocation (junk on raise). -/
def AdapterOutcome.okSources : AdapterOutcome → SourcesText
  | .ok _ s => s
  | .raise _ => .str ""

/-- The `generated_cv_data` entry recorded for a configured spec whose
invocation returns normally (line 430). -/
def okEntry (sp : InternSpec) : String × CVData :=
  (sp.name, ⟨sp.behavior.okText, sp.behavior.okSources.asStored⟩)

/-- Whether the run reached the end of its block. -/
def RunOutcome.isCompleted : RunOutcome → Bool
  | .completed _ => true
  | .aborted _ _ => false

/-! Concrete batch inputs used by the closed theorems below. -/

/-- Two configured drafters; the first raises an ordinary provider error
(for instance a rate limit), the second would succeed. -/
def c1Specs : List InternSpec :=
  [{ name := "Sonar", configured := true, kind := .perplexity,
     behavior := .raise ⟨.otherError, "Rate limit exceeded"⟩,
     fallbackBehavior := .ok "" (.str "") },
   { name := "Gemini", configured := true, kind := .google_client_grounding,
     behavior := .ok "Gemini draft CV" (.str "Grounding Sources:\n- [t](u)"),
     fallbackBehavior := .ok "" (.str "") }]

/-- Two selected drafters, both with an unconfigured backing client,
plus one selected editor. -/
def c2Interns : List InternSpec :=
  [{ name := "Sonar", configured := false, kind := .perplexity,
     behavior := .ok "CV A" (.str "SA"), fallbackBehavior := .ok "" (.str "") },
   { name := "Gemini", configured := false, kind := .google_client_grounding,
     behavior := .ok "CV B" (.str "SB"), fallbackBehavior := .ok "" (.str "") }]

/-- One selected editor for the runs above. -/
def c2Editors : List EditorSpec := [{ name := "Graham", behavior := .ok "Synthesized CV" }]

/-- Two drafters, one configured and succeeding, one unconfigured. -/
def w2Interns : List InternSpec :=
  [{ name := "Sonar", configured := true, kind := .perplexity,
     behavior := .ok "Draft CV A" (.str "SA"), fallbackBehavior := .ok "" (.str "") },
   { name := "Gemini", configured := false, kind := .google_client_grounding,
     behavior := .ok "Draft CV B" (.str "SB"), fallbackBehavior := .ok "" (.str "") }]

/-- One selected editor. -/
def w2Editors : List EditorSpec := [{ name := "Graham", behavior := .ok "Synthesized CV" }]

/-- The state the batch over `w2Interns`/`w2Editors` completes in. -/
def w2State : BatchState :=
  { combined := answerBlock "Sonar" "Draft CV A" "SA"
    data := [("Sonar", ⟨"Draft CV A", "SA"⟩)]
    step := 2
    internInvocations := ["Sonar"]
    fallbackInvocations := []
    editorInvocations := []
    promptsBuilt := []
    note := some .infoSkip }

/-- Two Success drafts, as fed to the synthesis prompt builder. -/
def c3Successes : List (String × CVData) :=
  [("Sonar", ⟨"Draft CV A", "SA"⟩), ("Gemini", ⟨"Draft CV B", "SB"⟩)]

/-- Two configured, succeeding drafters. -/
def w3Interns : List InternSpec :=
  [{ name := "Sonar", configured := true, kind := .perplexity,
     behavior := .ok "Draft CV A" (.str "SA"), fallbackBehavior := .ok "" (.str "") },
   { name := "Gemini", configured := true, kind := .google_client_grounding,
     behavior := .ok "Draft CV B" (.str "SB"), fallbackBehavior := .ok "" (.str "") }]

/-- One selected editor that succeeds. -/
def w3Editors : List EditorSpec := [{ name := "Graham", behavior := .ok "Synthesized CV" }]

/-- The Success entries of the run over `w3Interns`. -/
def w3Succ : List (String × CVData) :=
  [("Sonar", ⟨"Draft CV A", "SA"⟩), ("Gemini", ⟨"Draft CV B", "SB"⟩)]

/-- The state the drafter loop over `w3Interns` completes in (before the
editor loop). -/
def w3DraftState : BatchState :=
  { combined := answerBlock "Sonar" "Draft CV A" "SA" ++ answerBlock "Gemini" "Draft CV B" "SB"
    data := w3Succ
    step := 2
    internInvocations := ["Sonar", "Gemini"]
    fallbackInvocations := []
    editorInvocations := []
    promptsBuilt := []
    note := none }

/-- One configured drafter whose invocation raises. -/
def c4Specs : List InternSpec :=
  [{ name := "Claude", configured := true, kind := .anthropic_websearch,
     behavior := .raise ⟨.otherError, "overloaded_error"⟩,
     fallbackBehavior := .ok "" (.str "") }]

/-- Three drafters: configured-and-ok, unconfigured, configured-and-ok. -/
def w4Specs : List InternSpec :=
  [{ name := "Sonar", configured := true, kind := .perplexity,
     behavior := .ok "Draft CV A" (.str "SA"), fallbackBehavior := .ok "" (.str "") },
   { name := "Gemini", configured := false, kind := .google_client_grounding,
     behavior := .ok "Draft CV B" (.str "SB"), fallbackBehavior := .ok "" (.str "") },
   { name := "Claude", configured := true, kind := .anthropic_websearch,
     behavior := .ok "Draft CV C" (.str "SC"), fallbackBehavior := .ok "" (.str "") }]

/-- Two configured, succeeding drafters, no editors selected. -/
def w5Interns : List InternSpec :=
  [{ name := "Sonar", configured := true, kind := .perplexity,
     behavior := .ok "Draft CV A" (.str "SA"), fallbackBehavior := .ok "" (.str "") },
   { name := "Gemini", configured := true, kind := .google_client_grounding,
     behavior := .ok "Draft CV B" (.str "SB"), fallbackBehavior := .ok "" (.str "") }]

/-- The state the batch over `w5Interns` and no editors completes in. -/
def w5State : BatchState :=
  { combined := answerBlock "Sonar" "Draft CV A" "SA" ++ answerBlock "Gemini" "Draft CV B" "SB"
    data := [("Sonar", ⟨"Draft CV A", "SA"⟩), ("Gemini", ⟨"Draft CV B", "SB"⟩)]
    step := 2
    internInvocations := ["Sonar", "Gemini"]
    fallbackInvocations := []
    editorInvocations := []
    promptsBuilt := []
    note := none }

/-- The configured drafter whose client lacks the `.responses`
attribute: invoking the Responses API raises AttributeError. -/
def c6Spec : InternSpec :=
  { name := "Optima", configured := true, kind := .openai_responses_websearch,
    behavior := .raise
      ⟨.attributeError, "\x27OpenAI\x27 object has no attribute \x27responses\x27"⟩,
    fallbackBehavior := .ok "Fallback draft CV" (.str "") }

/-- A perplexity response whose citation list holds a duplicate URL, a
non-string entry and a blank string. -/
def c7Perp : PerplexityResponse :=
  { citations := some [.str "https://a.example", .str "https://a.example", .other, .str "  "]
    modelExtraCitations := [] }

/-- A google response with one duplicated grounding reference and one
chunk lacking the web attribute. -/
def c7Goog : GoogleResponse :=
  { firstCandidateGroundingMetadata := some
      { grounding_chunks := some
          [{ web := some { title := some "T", uri := some "https://g.example" } },
           { web := none },
           { web := some { title := some "T", uri := some "https://g.example" } }] } }

/-- An openai responses output with the same citation annotated twice. -/
def c7Open : OpenAIResponse :=
  { output := some
      [{ type := "message", content := some
          [{ type := "output_text", anns := some
              [{ type := "url_citation", url := some "https://o.example", title := some "T" },
               { type := "url_citation", url := some "https://o.example", title := some "T" }] }] }]
    rawDebugStr := "raw" }

/-- An anthropic response with a duplicated citation on a text block. -/
def c7Anth : AnthropicResponse :=
  { content :=
      [{ type := "text", text := "Alpha", citations := some
          [{ url := some "https://c.example", title := some "T" },
           { url := some "https://c.example", title := some "T" }] }]
    stop_reason := "end_turn" }

/-- Drafts as recorded in `generated_cv_data`: one whose text begins
with "Error:" although its provider returned it as an ordinary draft,
and one ordinary draft. -/
def c9Data : List (String × CVData) :=
  [("Sonar", ⟨"Error: the subject requested no biography be written.", "SA"⟩),
   ("Gemini", ⟨"Draft CV B", "SB"⟩)]

/-- Two drafters, one configured and succeeding, one unconfigured, so
that exactly one draft succeeds. -/
def w10Interns : List InternSpec :=
  [{ name := "Sonar", configured := true, kind := .perplexity,
     behavior := .ok "Draft CV A" (.str "SA"), fallbackBehavior := .ok "" (.str "") },
   { name := "Gemini", configured := false, kind := .google_client_grounding,
     behavior := .ok "Draft CV B" (.str "SB"), fallbackBehavior := .ok "" (.str "") }]

/-- One selected editor. -/
def w10Editors : List EditorSpec := [{ name := "Graham", behavior := .ok "Synthesized CV" }]

/-- The state the batch over `w10Interns`/`w10Editors` completes in. -/
def w10State : BatchState :=
  { combined := answerBlock "Sonar" "Draft CV A" "SA"
    data := [("Sonar", ⟨"Draft CV A", "SA"⟩)]
    step := 2
    internInvocations := ["Sonar"]
    fallbackInvocations := []
    editorInvocations := []
    promptsBuilt := []
    note := some .infoSkip }

/-! Helper lemmas. -/

/-- The bare name `openai` is not among the module-level bindings. -/
theorem moduleImportNames_no_openai : moduleImportNames.contains "openai" = false := by
  decide

/-- With the unbound name `openai` in its first clause, the drafter
handler chain always aborts with the NameError. -/
theorem drafterHandle_aborts (sp : InternSpec) (e : PyExc) (s : BatchState) :
    drafterHandle sp e s = .aborted nameErrorOpenai s := by
  have hM : ¬ (moduleImportNames.contains "openai" = true) := by decide
  unfold drafterHandle
  rw [if_neg hM]

/-- Likewise, a raising editor invocation aborts the editor loop. -/
theorem editorStep_raise_aborts (progress : Bool) (kp date : String)
    (successes : List (String × CVData)) (ed : EditorSpec) (s : BatchState)
    (e : PyExc) (h : ed.behavior = .raise e) :
    editorStep progress kp date successes ed s =
      .aborted nameErrorOpenai
        { s with
          promptsBuilt := s.promptsBuilt ++ [buildSynthesisPrompt kp date successes]
          editorInvocations := s.editorInvocations ++ [ed.name] } := by
  have hM : ¬ (moduleImportNames.contains "openai" = true) := by decide
  unfold editorStep
  rw [h]
  simp only [if_neg hM]

/-- An unconfigured spec is skipped: progress advances, nothing else
changes. -/
theorem drafterStep_skip (progress : Bool) (sp : InternSpec) (s : BatchState)
    (h : sp.configured = false) :
    drafterStep progress sp s =
      .completed { s with step := if progress then s.step + 1 else s.step } := by
  unfold drafterStep
  rw [if_pos h]

/-- A configured spec whose invocation returns normally records its
entry and block, and progress advances. -/
theorem drafterStep_ok (progress : Bool) (sp : InternSpec) (s : BatchState)
    (t : String) (src : SourcesText)
    (h : sp.configured = true) (hb : sp.behavior = .ok t src) :
    drafterStep progress sp s = .completed
      { combined := s.combined ++ answerBlock sp.name t src.asStored
        data := dictInsert s.data sp.name ⟨t, src.asStored⟩
        step := if progress then s.step + 1 else s.step
        internInvocations := s.internInvocations ++ [sp.name]
        fallbackInvocations := s.fallbackInvocations
        editorInvocations := s.editorInvocations
        promptsBuilt := s.promptsBuilt
        note := s.note } := by
  unfold drafterStep
  rw [if_neg (by simp [h]), hb]

/-- A configured spec whose invocation raises aborts the loop with the
NameError, the adapter having been invoked but nothing recorded. -/
theorem drafterStep_raise (progress : Bool) (sp : InternSpec) (s : BatchState)
    (e : PyExc) (h : sp.configured = true) (hb : sp.behavior = .raise e) :
    drafterStep progress sp s =
      .aborted nameErrorOpenai
        { s with internInvocations := s.internInvocations ++ [sp.name] } := by
  unfold drafterStep
  rw [if_neg (by simp [h]), hb]
  dsimp only
  rw [drafterHandle_aborts]

/-- Inserting a fresh key into the dict appends the new pair. -/
theorem dictInsert_fresh (l : List (String × CVData)) (k : String) (v : CVData)
    (h : k ∉ l.map Prod.fst) : dictInsert l k v = l ++ [(k, v)] := by
  induction l with
  | nil => rfl
  | cons p t ih =>
      simp only [List.map_cons, List.mem_cons] at h
      push_neg at h
      simp [dictInsert, h.1, ih h.2, Ne.symm h.1]

/-- A completed drafter loop advances the progress counter once per
selected spec and leaves the editor-side fields and the final note
untouched. -/
theorem runDrafters_completed_inv (progress : Bool) (specs : List InternSpec)
    (s st : BatchState) (h : runDrafters progress specs s = .completed st) :
    st.step = (if progress then s.step + specs.length else s.step) ∧
    st.editorInvocations = s.editorInvocations ∧
    st.promptsBuilt = s.promptsBuilt ∧
    st.note = s.note := by
  induction specs generalizing s with
  | nil =>
      simp only [runDrafters] at h
      cases h
      refine ⟨?_, rfl, rfl, rfl⟩
      cases progress <;> simp
  | cons sp rest ih =>
      simp only [runDrafters] at h
      by_cases hc : sp.configured = false
      · rw [drafterStep_skip progress sp s hc] at h
        obtain ⟨h1, h2, h3, h4⟩ := ih _ h
        refine ⟨?_, h2, h3, h4⟩
        cases progress <;> (simp_all; try omega)
      · rw [Bool.not_eq_false] at hc
        cases hb : sp.behavior with
        | ok t src =>
            rw [drafterStep_ok progress sp s t src hc hb] at h
            obtain ⟨h1, h2, h3, h4⟩ := ih _ h
            refine ⟨?_, h2, h3, h4⟩
            cases progress <;> (simp_all; try omega)
        | raise e =>
            rw [drafterStep_raise progress sp s e hc hb] at h
            cases h

/-- An editor whose invocation returns normally: the prompt is built,
the editor recorded, progress advanced. -/
theorem editorStep_ok (progress : Bool) (kp date : String)
    (successes : List (String × CVData)) (ed : EditorSpec) (s : BatchState)
    (t : String) (h : ed.behavior = .ok t) :
    editorStep progress kp date successes ed s = .completed
      { combined := s.combined
        data := s.data
        step := if progress then s.step + 1 else s.step
        internInvocations := s.internInvocations
        fallbackInvocations := s.fallbackInvocations
        editorInvocations := s.editorInvocations ++ [ed.name]
        promptsBuilt := s.promptsBuilt ++ [buildSynthesisPrompt kp date successes]
        note := s.note } := by
  unfold editorStep
  rw [h]

/-- A completed editor loop leaves the drafter-side fields and the note
untouched, builds one identical synthesis prompt per selected editor,
and records every editor in order. -/
theorem runEditors_completed_inv (progress : Bool) (kp date : String)
    (successes : List (String × CVData)) (eds : List EditorSpec)
    (s st : BatchState)
    (h : runEditors progress kp date successes eds s = .completed st) :
    st.combined = s.combined ∧
    st.data = s.data ∧
    st.internInvocations = s.internInvocations ∧
    st.fallbackInvocations = s.fallbackInvocations ∧
    st.note = s.note ∧
    st.promptsBuilt =
      s.promptsBuilt ++ List.replicate eds.length (buildSynthesisPrompt kp date successes) ∧
    st.editorInvocations = s.editorInvocations ++ eds.map EditorSpec.name := by
  induction eds generalizing s with
  | nil =>
      simp only [runEditors] at h
      cases h
      simp
  | cons ed rest ih =>
      simp only [runEditors] at h
      cases hb : ed.behavior with
      | ok t =>
          rw [editorStep_ok progress kp date successes ed s t hb] at h
          obtain ⟨h1, h2, h3, h4, h5, h6, h7⟩ := ih _ h
          refine ⟨h1, h2, h3, h4, h5, ?_, ?_⟩
          · rw [h6]
            simp [List.replicate_succ]
          · rw [h7]
            simp
      | raise e =>
          rw [editorStep_raise_aborts progress kp date successes ed s e hb] at h
          cases h

/-- Characterization of a drafter loop in which every invoked adapter
returns normally and the selection is duplicate-free: it completes, the
configured specs are invoked in selection order, their entries are
appended in that order, and progress advances once per spec. -/
theorem runDrafters_allOk (progress : Bool) (specs : List InternSpec) (s : BatchState)
    (hok : specs.all (fun sp => sp.behavior.isOkB) = true)
    (hnd : ((specs.filter (fun sp => sp.configured)).map InternSpec.name).Nodup)
    (hfresh : ∀ sp ∈ specs, sp.configured = true → sp.name ∉ s.data.map Prod.fst) :
    ∃ st, runDrafters progress specs s = .completed st ∧
      st.data = s.data ++ (specs.filter (fun sp => sp.configured)).map okEntry ∧
      st.internInvocations =
        s.internInvocations ++ (specs.filter (fun sp => sp.configured)).map InternSpec.name ∧
      st.step = (if progress then s.step + specs.length else s.step) ∧
      st.fallbackInvocations = s.fallbackInvocations ∧
      st.editorInvocations = s.editorInvocations ∧
      st.promptsBuilt = s.promptsBuilt ∧
      st.note = s.note := by
  induction specs generalizing s with
  | nil =>
      refine ⟨s, rfl, ?_⟩
      cases progress <;> simp
  | cons sp rest ih =>
      rw [List.all_cons, Bool.and_eq_true] at hok
      by_cases hc : sp.configured = false
      · have hfilter : (sp :: rest).filter (fun sp => sp.configured) =
            rest.filter (fun sp => sp.configured) := by
          simp [List.filter_cons, hc]
        obtain ⟨st, hrun, hdata, hinv, hstep, hfb, hed, hpr, hnote⟩ :=
          ih (s := { s with step := if progress then s.step + 1 else s.step })
            hok.2 (by rw [hfilter] at hnd; exact hnd)
            (fun sp2 hm hcfg => hfresh sp2 (List.mem_cons_of_mem _ hm) hcfg)
        refine ⟨st, ?_, ?_⟩
        · simp only [runDrafters]
          rw [drafterStep_skip progress sp s hc]
          exact hrun
        · rw [hfilter]
          refine ⟨hdata, hinv, ?_, hfb, hed, hpr, hnote⟩
          rw [hstep]
          cases progress <;> (simp; try omega)
      · rw [Bool.not_eq_false] at hc
        cases hb : sp.behavior with
        | raise e =>
            exfalso
            have := hok.1
            rw [hb] at this
            simp [AdapterOutcome.isOkB] at this
        | ok t src =>
            have hfilter : (sp :: rest).filter (fun sp => sp.configured) =
                sp :: rest.filter (fun sp => sp.configured) := by
              simp [List.filter_cons, hc]
            rw [hfilter] at hnd
            have hnd2 := hnd
            rw [List.map_cons, List.nodup_cons] at hnd2
            have hfreshname : sp.name ∉ s.data.map Prod.fst :=
              hfresh sp (List.mem_cons_self _ _) hc
            have hdict : dictInsert s.data sp.name ⟨t, src.asStored⟩ =
                s.data ++ [(sp.name, ⟨t, src.asStored⟩)] :=
              dictInsert_fresh s.data sp.name ⟨t, src.asStored⟩ hfreshname
            set s1 : BatchState :=
              { combined := s.combined ++ answerBlock sp.name t src.asStored
                data := s.data ++ [(sp.name, ⟨t, src.asStored⟩)]
                step := if progress then s.step + 1 else s.step
                internInvocations := s.internInvocations ++ [sp.name]
                fallbackInvocations := s.fallbackInvocations
                editorInvocations := s.editorInvocations
                promptsBuilt := s.promptsBuilt
                note := s.note } with hs1
            have hfresh2 : ∀ sp2 ∈ rest, sp2.configured = true →
                sp2.name ∉ s1.data.map Prod.fst := by
              intro sp2 hm hcfg
              rw [hs1]
              simp only [List.map_append, List.map_cons, List.map_nil, List.mem_append,
                List.mem_singleton]
              rintro (hin | hq)
              · exact hfresh sp2 (List.mem_cons_of_mem _ hm) hcfg hin
              · apply hnd2.1
                rw [← hq]
                exact List.mem_map_of_mem InternSpec.name
                  (List.mem_filter.mpr ⟨hm, hcfg⟩)
            obtain ⟨st, hrun, hdata, hinv, hstep, hfb, hed, hpr, hnote⟩ :=
              ih (s := s1) hok.2 hnd2.2 hfresh2
            refine ⟨st, ?_, ?_⟩
            · simp only [runDrafters]
              rw [drafterStep_ok progress sp s t src hc hb, hdict]
              exact hrun
            · rw [hfilter]
              constructor
              · rw [hdata, hs1]
                simp only [List.map_cons, List.append_assoc, List.singleton_append,
                  List.cons_append]
                have : okEntry sp = (sp.name, ⟨t, src.asStored⟩) := by
                  simp [okEntry, hb, AdapterOutcome.okText, AdapterOutcome.okSources]
                rw [this]
                simp
              constructor
              · rw [hinv, hs1]
                simp
              refine ⟨?_, hfb, hed, hpr, hnote⟩
              rw [hstep, hs1]
              cases progress <;> (simp; try omega)

/-- Inversion for a completed batch with at most one Success draft: the
editor loop was never entered, no synthesis prompt was built, the step
counter equals the drafter count (when the progress bar exists), and the
final note is the informational skip message or the no-CVs error message
according to whether any draft block was recorded. -/
theorem runBatch_completed_le_one_success (kp date : String)
    (interns : List InternSpec) (editors : List EditorSpec) (st : BatchState)
    (hrun : runBatch kp date interns editors = .completed st)
    (hle : (successOf st.data).length ≤ 1) :
    st.editorInvocations = [] ∧
    st.promptsBuilt = [] ∧
    st.step = (if (totalSteps interns editors != 0) = true then interns.length else 0) ∧
    st.note = some (if st.combined = "" then FinalNote.errorNoCVs else FinalNote.infoSkip) := by
  unfold runBatch at hrun
  dsimp only at hrun
  cases hd : runDrafters (totalSteps interns editors != 0) interns initBatchState with
  | aborted m s1 =>
      rw [hd] at hrun
      dsimp only at hrun
      cases hrun
  | completed s1 =>
      rw [hd] at hrun
      dsimp only at hrun
      obtain ⟨hstep, hed, hpr, hnote⟩ := runDrafters_completed_inv _ _ _ _ hd
      simp only [initBatchState] at hstep hed hpr hnote
      by_cases hgate : 1 < (successOf s1.data).length ∧ editors ≠ []
      · rw [if_pos hgate] at hrun
        obtain ⟨_, hdata, _, _, _, _, _⟩ :=
          runEditors_completed_inv _ _ _ _ _ _ _ hrun
        rw [hdata] at hle
        omega
      · rw [if_neg hgate] at hrun
        by_cases h2 : (successOf s1.data).length ≤ 1 ∧ s1.combined ≠ ""
        · rw [if_pos h2] at hrun
          cases hrun
          refine ⟨hed, hpr, ?_, ?_⟩
          · rw [hstep]
            cases hb : (totalSteps interns editors != 0) <;> simp
          · simp [if_neg h2.2]
        · rw [if_neg h2] at hrun
          by_cases h3 : s1.combined = ""
          · rw [if_pos h3] at hrun
            cases hrun
            refine ⟨hed, hpr, ?_, ?_⟩
            · rw [hstep]
              cases hb : (totalSteps interns editors != 0) <;> simp
            · simp [if_pos h3]
          · rw [if_neg h3] at hrun
            cases hrun
            exact absurd ⟨hle, h3⟩ h2

/-! Claim theorems. -/

/-- C1.  The claim states that a provider invocation error is caught at
the adapter boundary, converted into an Error-status result, and that
the batch continues to the next provider.  In the code this fails: the
first except clause of the drafter loop (line 439) reads
`except openai.APIStatusError as e:` while the name `openai` is unbound
(line 9 imports only `OpenAI` from it), so the clause itself raises
NameError, the handler search is cancelled, and the NameError propagates
out of the loop.  Concretely, with two configured drafters of which the
first raises an ordinary provider error, the run aborts with the
NameError: no Error-status entry is recorded, progress never advances,
and the second drafter is never invoked. -/
theorem C1_provider_error_escapes_loop :
    runDrafters true c1Specs initBatchState =
      .aborted nameErrorOpenai
        { initBatchState with internInvocations := ["Sonar"] } ∧
    (runDrafters true c1Specs initBatchState).state.data = [] ∧
    (runDrafters true c1Specs initBatchState).state.step = 0 ∧
    (runDrafters true c1Specs initBatchState).state.internInvocations = ["Sonar"] := by
  decide

/-- C6.  The claim states that when the Responses-API client lacks the
`.responses` attribute the adapter falls back once to plain chat
completion.  The fallback handler exists (lines 447-470) but is
unreachable: the AttributeError raised inside the try body first meets
the clause `except openai.APIStatusError` of line 439, whose class
expression raises NameError (unbound name `openai`), cancelling the
handler search.  Concretely, for the Optima drafter whose invocation
raises exactly the guarded AttributeError, the run aborts with the
NameError and the fallback is never invoked. -/
theorem C6_fallback_unreachable :
    runDrafters true [c6Spec] initBatchState =
      .aborted nameErrorOpenai
        { initBatchState with internInvocations := ["Optima"] } ∧
    (runDrafters true [c6Spec] initBatchState).state.fallbackInvocations = [] ∧
    (runDrafters true [c6Spec] initBatchState).state.data = [] := by
  decide

/-- C8.  The first half of the claim holds: the anthropic adapter forms
its text by concatenating the text-typed content blocks in order (third
conjunct).  The second half fails: for a response with no text block and
stop reason tool_use, the code leaves the line-256 default message
"Model Claude did not return a text response.", not the line-406
sentinel, because `output_text` is initialized non-empty at line 256 and
the guard `if not output_text ...` of line 405 is therefore never true. -/
theorem C8_tool_use_sentinel_dead :
    anthropicOutputText "Claude" ⟨[], "tool_use"⟩ = modelDefaultText "Claude" ∧
    anthropicOutputText "Claude" ⟨[], "tool_use"⟩ ≠ anthropicSentinel ∧
    anthropicParsedText
      ⟨[⟨"text", "Alpha", none⟩, ⟨"tool_use", "q", none⟩, ⟨"text", "Beta", none⟩],
        "end_turn"⟩ = "Alpha\nBeta\n" ∧
    anthropicOutputText "Claude"
      ⟨[⟨"text", "Alpha", none⟩, ⟨"tool_use", "q", none⟩, ⟨"text", "Beta", none⟩],
        "end_turn"⟩ = "Alpha\nBeta" := by
  decide

/-- C4, counterexample.  The claim counts exactly K progress increments
for every ordered selection of K specs of which J are unconfigured.  For
the one-element selection `c4Specs` (K = 1, J = 0) whose single
configured adapter raises, the code performs the one invocation but
aborts before the progress increment of line 482 (the NameError of the
line-439 clause), so zero increments occur, not K = 1. -/
theorem C4_counterexample :
    runDrafters true c4Specs initBatchState =
      .aborted nameErrorOpenai
        { initBatchState with internInvocations := ["Claude"] } ∧
    (runDrafters true c4Specs initBatchState).state.step = 0 ∧
    c4Specs.length = 1 ∧
    (c4Specs.filter (fun sp => !sp.configured)).length = 0 := by
  decide

/-- C2, counterexample.  The claim states that whenever at most one
draft succeeds, an informational skip message is produced instead of an
error.  For a completed batch in which every selected drafter is skipped
as unconfigured (two selected drafters, one selected editor), zero
drafts succeed, yet the code produces the `st.error` message of line 601
("No CVs were generated...") because `combined_output_for_copying` is
empty, not the informational skip message of line 599. -/
theorem C2_counterexample :
    runBatch "Jane Doe" "May 01, 2025" c2Interns c2Editors =
      .completed { initBatchState with step := 2, note := some .errorNoCVs } ∧
    (successOf (runBatch "Jane Doe" "May 01, 2025" c2Interns c2Editors).state.data).length ≤ 1 ∧
    (runBatch "Jane Doe" "May 01, 2025" c2Interns c2Editors).state.note ≠
      some FinalNote.infoSkip ∧
    FinalNote.isError .errorNoCVs = true := by
  decide

/-- C3, counterexample.  The claim states that the instruction block
supports, as a configuration choice, both a mode that names the
contributing provider per side of a conflict and a generic mode.  The
builder has no such configuration input, and the one instruction block
it can emit contains the line-525 directive that forbids naming the
provider models: the prompt built for a concrete pair of drafts
decomposes as below, with `synthNoNamingDirective` (the "**DO NOT
mention the names of the AI models ...** Instead, use general phrasing."
line) between the fixed instruction segments. -/
theorem C3_counterexample :
    buildSynthesisPrompt "Jane Doe" "May 01, 2025" c3Successes =
      synthInstrA "Jane Doe" "May 01, 2025" ++ synthNoNamingDirective ++ synthInstrB ++
        provenanceLine ["Sonar", "Gemini"] ++ synthInstrC ++
        String.join (c3Successes.map (fun q => synthBlock q.1 q.2)) ∧
    synthNoNamingDirective ≠ "" := by
  exact ⟨rfl, by decide⟩

/-- C2, amended.  On a batch run that completes, whenever the number of
Success drafts is at most one the editor loop is never invoked and no
synthesis prompt is built, regardless of how many editors were selected;
the informational skip message of line 599 is produced when at least one
draft block was recorded, and the no-CVs error message of line 601 is
produced when the combined draft output is empty. -/
theorem C2_synthesis_skip_gate (kp date : String) (interns : List InternSpec)
    (editors : List EditorSpec) (st : BatchState)
    (hrun : runBatch kp date interns editors = .completed st)
    (hle : (successOf st.data).length ≤ 1) :
    st.editorInvocations = [] ∧
    st.promptsBuilt = [] ∧
    st.note = some (if st.combined = "" then FinalNote.errorNoCVs else FinalNote.infoSkip) := by
  obtain ⟨h1, h2, _, h4⟩ :=
    runBatch_completed_le_one_success kp date interns editors st hrun hle
  exact ⟨h1, h2, h4⟩

/-- C2, witness: the amended statement at a concrete completed run with
one Success draft and one selected editor. -/
theorem C2_synthesis_skip_gate_witness :
    w2State.editorInvocations = [] ∧
    w2State.promptsBuilt = [] ∧
    w2State.note = some (if w2State.combined = "" then FinalNote.errorNoCVs else FinalNote.infoSkip) :=
  C2_synthesis_skip_gate "Jane Doe" "May 01, 2025" w2Interns w2Editors w2State
    (by decide) (by decide)

/-- C10.  The progress total is fixed up front as the number of selected
drafters plus (when more than one drafter is selected) the number of
selected editors; on a completed run in which editors were selected but
at most one draft succeeded, the editor steps are never incremented, so
the final progress count equals the drafter count and is strictly less
than the announced total. -/
theorem C10_progress_shortfall (kp date : String) (interns : List InternSpec)
    (editors : List EditorSpec) (st : BatchState)
    (hrun : runBatch kp date interns editors = .completed st)
    (hed : editors ≠ []) (hmany : 1 < interns.length)
    (hle : (successOf st.data).length ≤ 1) :
    totalSteps interns editors = interns.length + editors.length ∧
    st.step = interns.length ∧
    st.step < totalSteps interns editors ∧
    st.editorInvocations = [] := by
  have htot : totalSteps interns editors = interns.length + editors.length := by
    unfold totalSteps
    rw [if_pos ⟨hmany, hed⟩]
  have hpos : 0 < editors.length := List.length_pos.mpr hed
  have hne : (totalSteps interns editors != 0) = true := by
    rw [bne_iff_ne]
    omega
  obtain ⟨h1, _, h3, _⟩ :=
    runBatch_completed_le_one_success kp date interns editors st hrun hle
  rw [hne] at h3
  simp at h3
  refine ⟨htot, h3, ?_, h1⟩
  omega

/-- C10, witness: the statement at a concrete completed run with two
selected drafters (one succeeding), one selected editor. -/
theorem C10_progress_shortfall_witness :
    totalSteps w10Interns w10Editors = w10Interns.length + w10Editors.length ∧
    w10State.step = w10Interns.length ∧
    w10State.step < totalSteps w10Interns w10Editors ∧
    w10State.editorInvocations = [] :=
  C10_progress_shortfall "Jane Doe" "May 01, 2025" w10Interns w10Editors w10State
    (by decide) (by decide) (by decide) (by decide)

/-- Splitting a list by a Boolean predicate preserves total length. -/
theorem filter_configured_length_split (l : List InternSpec) :
    (l.filter (fun sp => sp.configured)).length +
      (l.filter (fun sp => !sp.configured)).length = l.length := by
  induction l with
  | nil => rfl
  | cons a t ih =>
      cases hc : a.configured <;> simp [List.filter_cons, hc] <;> omega

/-- C4, amended.  For every duplicate-free ordered selection of K specs
of which J are unconfigured, provided every performed invocation returns
without raising, the drafter loop completes with exactly K-J adapter
invocations (the configured specs, in selection order), exactly K
progress increments, and the recorded entries are exactly those of the
configured specs in selection order — each unconfigured spec skipped
with nothing recorded. -/
theorem C4_skip_accounting (specs : List InternSpec)
    (hok : specs.all (fun sp => sp.behavior.isOkB) = true)
    (hnd : (specs.map InternSpec.name).Nodup) :
    (runDrafters true specs initBatchState).isCompleted = true ∧
    (runDrafters true specs initBatchState).state.internInvocations =
      (specs.filter (fun sp => sp.configured)).map InternSpec.name ∧
    (runDrafters true specs initBatchState).state.step = specs.length ∧
    (runDrafters true specs initBatchState).state.data =
      (specs.filter (fun sp => sp.configured)).map okEntry ∧
    ((specs.filter (fun sp => sp.configured)).map InternSpec.name).length +
      (specs.filter (fun sp => !sp.configured)).length = specs.length := by
  have hndf : ((specs.filter (fun sp => sp.configured)).map InternSpec.name).Nodup :=
    hnd.sublist ((List.filter_sublist specs).map InternSpec.name)
  obtain ⟨st, hrun, hdata, hinv, hstep, _, _, _, _⟩ :=
    runDrafters_allOk true specs initBatchState hok hndf
      (by intro sp hm hc; simp [initBatchState])
  rw [hrun]
  simp only [initBatchState, List.nil_append] at hdata hinv hstep
  refine ⟨rfl, ?_, ?_, ?_, ?_⟩
  · exact hinv
  · rw [RunOutcome.state, hstep]
    simp
  · exact hdata
  · rw [List.length_map]
    exact filter_configured_length_split specs

/-- C4, witness: the amended statement at a concrete selection of three
specs with one unconfigured. -/
theorem C4_skip_accounting_witness :
    (runDrafters true w4Specs initBatchState).isCompleted = true ∧
    (runDrafters true w4Specs initBatchState).state.internInvocations =
      (w4Specs.filter (fun sp => sp.configured)).map InternSpec.name ∧
    (runDrafters true w4Specs initBatchState).state.step = w4Specs.length ∧
    (runDrafters true w4Specs initBatchState).state.data =
      (w4Specs.filter (fun sp => sp.configured)).map okEntry ∧
    ((w4Specs.filter (fun sp => sp.configured)).map InternSpec.name).length +
      (w4Specs.filter (fun sp => !sp.configured)).length = w4Specs.length :=
  C4_skip_accounting w4Specs (by decide) (by decide)

/-- Inversion for a completed batch: the drafter loop completed, the
recorded drafts are its, and the prompts built are one per editor when
the synthesis gate of line 496 passed, none otherwise. -/
theorem runBatch_completed_inv (kp date : String) (interns : List InternSpec)
    (editors : List EditorSpec) (st : BatchState)
    (hrun : runBatch kp date interns editors = .completed st) :
    ∃ s1, runDrafters (totalSteps interns editors != 0) interns initBatchState =
        .completed s1 ∧
      st.data = s1.data ∧
      st.promptsBuilt = s1.promptsBuilt ++
        (if 1 < (successOf s1.data).length ∧ editors ≠ [] then
          List.replicate editors.length (buildSynthesisPrompt kp date (successOf s1.data))
        else []) := by
  unfold runBatch at hrun
  dsimp only at hrun
  cases hd : runDrafters (totalSteps interns editors != 0) interns initBatchState with
  | aborted m s1 =>
      rw [hd] at hrun
      dsimp only at hrun
      cases hrun
  | completed s1 =>
      rw [hd] at hrun
      dsimp only at hrun
      refine ⟨s1, rfl, ?_⟩
      by_cases hgate : 1 < (successOf s1.data).length ∧ editors ≠ []
      · rw [if_pos hgate] at hrun
        obtain ⟨_, hdataE, _, _, _, hprE, _⟩ :=
          runEditors_completed_inv _ _ _ _ _ _ _ hrun
        rw [if_pos hgate]
        exact ⟨hdataE, hprE⟩
      · rw [if_neg hgate] at hrun
        rw [if_neg hgate]
        simp only [List.append_nil]
        by_cases h2 : (successOf s1.data).length ≤ 1 ∧ s1.combined ≠ ""
        · rw [if_pos h2] at hrun
          cases hrun
          exact ⟨rfl, rfl⟩
        · rw [if_neg h2] at hrun
          by_cases h3 : s1.combined = ""
          · rw [if_pos h3] at hrun
            cases hrun
            exact ⟨rfl, rfl⟩
          · rw [if_neg h3] at hrun
            cases hrun
            exact ⟨rfl, rfl⟩

/-- The Success filter commutes with recording the configured entries:
the Success entries are exactly those of the configured specs whose
output text does not start with "Error:". -/
theorem successOf_map_okEntry (l : List InternSpec) :
    successOf ((l.filter (fun sp => sp.configured)).map okEntry) =
      (l.filter (fun sp =>
        sp.configured && !(pyStartsWith sp.behavior.okText "Error:"))).map okEntry := by
  induction l with
  | nil => rfl
  | cons a t ih =>
      cases hc : a.configured with
      | false => simpa [List.filter_cons, hc] using ih
      | true =>
          cases hq : pyStartsWith a.behavior.okText "Error:" with
          | false =>
              simp only [List.filter_cons, hc, hq]
              simpa [successOf, List.filter_cons, okEntry, hq]
                using ih
          | true =>
              simp only [List.filter_cons, hc, hq]
              simpa [successOf, List.filter_cons, okEntry, hq]
                using ih

/-- C5.  For a completed batch whose invoked adapters all returned
normally (duplicate-free selection): every synthesis prompt built during
the run is the same byte-identical string, the prompt of the Success
drafts; the Success entries list the providers in the original selection
order (so the provenance line and the tagged blocks follow that order);
and the prompt decomposes as the fixed instruction block, the provenance
line over exactly those names in that order, and the tagged blocks in
that same order. -/
theorem C5_synthesis_prompt_deterministic (kp date : String)
    (interns : List InternSpec) (editors : List EditorSpec) (st : BatchState)
    (hok : interns.all (fun sp => sp.behavior.isOkB) = true)
    (hnd : (interns.map InternSpec.name).Nodup)
    (hrun : runBatch kp date interns editors = .completed st) :
    (∀ p ∈ st.promptsBuilt, p = buildSynthesisPrompt kp date (successOf st.data)) ∧
    ((successOf st.data).map Prod.fst =
      (interns.filter (fun sp =>
        sp.configured && !(pyStartsWith sp.behavior.okText "Error:"))).map InternSpec.name) ∧
    (buildSynthesisPrompt kp date (successOf st.data) =
      synthInstrA kp date ++ synthNoNamingDirective ++ synthInstrB ++
        provenanceLine ((successOf st.data).map Prod.fst) ++ synthInstrC ++
        String.join ((successOf st.data).map (fun q => synthBlock q.1 q.2))) := by
  obtain ⟨s1, hd, hdata, hpr⟩ := runBatch_completed_inv kp date interns editors st hrun
  have hndf : ((interns.filter (fun sp => sp.configured)).map InternSpec.name).Nodup :=
    hnd.sublist ((List.filter_sublist interns).map InternSpec.name)
  obtain ⟨st1, hrun1, hdata1, _, _, _, _, hpr1, _⟩ :=
    runDrafters_allOk (totalSteps interns editors != 0) interns initBatchState hok hndf
      (by intro sp hm hc; simp [initBatchState])
  rw [hd] at hrun1
  injection hrun1 with heq
  subst heq
  simp only [initBatchState, List.nil_append] at hdata1 hpr1
  refine ⟨?_, ?_, rfl⟩
  · intro p hp
    rw [hpr, hpr1, List.nil_append] at hp
    by_cases hgate : 1 < (successOf s1.data).length ∧ editors ≠ []
    · rw [if_pos hgate] at hp
      rw [List.eq_of_mem_replicate hp, hdata]
    · rw [if_neg hgate] at hp
      cases hp
  · rw [hdata, hdata1, successOf_map_okEntry, List.map_map]
    rfl

/-- C5, witness: the statement at a concrete completed run of two
succeeding drafters and no editors. -/
theorem C5_synthesis_prompt_deterministic_witness :
    (∀ p ∈ w5State.promptsBuilt,
      p = buildSynthesisPrompt "Jane Doe" "May 01, 2025" (successOf w5State.data)) ∧
    ((successOf w5State.data).map Prod.fst =
      (w5Interns.filter (fun sp =>
        sp.configured && !(pyStartsWith sp.behavior.okText "Error:"))).map InternSpec.name) ∧
    (buildSynthesisPrompt "Jane Doe" "May 01, 2025" (successOf w5State.data) =
      synthInstrA "Jane Doe" "May 01, 2025" ++ synthNoNamingDirective ++ synthInstrB ++
        provenanceLine ((successOf w5State.data).map Prod.fst) ++ synthInstrC ++
        String.join ((successOf w5State.data).map (fun q => synthBlock q.1 q.2))) :=
  C5_synthesis_prompt_deterministic "Jane Doe" "May 01, 2025" w5Interns []
    w5State (by decide) (by decide) (by decide)

/-- C3, amended.  The conflict-note policy is not configurable: the code
bakes in the generic mode only.  Every synthesis prompt built during any
completed batch run decomposes as the fixed instruction text with the
line-525 directive `synthNoNamingDirective` — which forbids naming the
contributing provider models and mandates general phrasing — followed by
the provenance line and the tagged blocks; no input of the construction
selects a provider-naming mode. -/
theorem C3_generic_mode_only (kp date : String) (interns : List InternSpec)
    (editors : List EditorSpec) (st : BatchState)
    (hrun : runBatch kp date interns editors = .completed st) :
    ∀ p ∈ st.promptsBuilt,
      p = synthInstrA kp date ++ synthNoNamingDirective ++ synthInstrB ++
        provenanceLine ((successOf st.data).map Prod.fst) ++ synthInstrC ++
        String.join ((successOf st.data).map (fun q => synthBlock q.1 q.2)) := by
  obtain ⟨s1, hd, hdata, hpr⟩ := runBatch_completed_inv kp date interns editors st hrun
  obtain ⟨_, _, hpr1, _⟩ := runDrafters_completed_inv _ _ _ _ hd
  simp only [initBatchState] at hpr1
  intro p hp
  rw [hpr, hpr1, List.nil_append] at hp
  by_cases hgate : 1 < (successOf s1.data).length ∧ editors ≠ []
  · rw [if_pos hgate] at hp
    rw [List.eq_of_mem_replicate hp, hdata]
    rfl
  · rw [if_neg hgate] at hp
    cases hp

/-- C3, witness: the decomposition of the one prompt built during a
concrete completed run with two succeeding drafters and one editor. -/
theorem C3_generic_mode_only_witness :
    buildSynthesisPrompt "Jane Doe" "May 01, 2025" w3Succ =
      synthInstrA "Jane Doe" "May 01, 2025" ++ synthNoNamingDirective ++ synthInstrB ++
        provenanceLine (w3Succ.map Prod.fst) ++ synthInstrC ++
        String.join (w3Succ.map (fun q => synthBlock q.1 q.2)) := by
  have hd : runDrafters (totalSteps w3Interns w3Editors != 0) w3Interns initBatchState =
      .completed w3DraftState := by decide
  have hsucc : successOf w3DraftState.data = w3Succ := by decide
  have hrun : runBatch "Jane Doe" "May 01, 2025" w3Interns w3Editors =
      .completed { w3DraftState with
        step := 3
        editorInvocations := ["Graham"]
        promptsBuilt :=
          [buildSynthesisPrompt "Jane Doe" "May 01, 2025" (successOf w3DraftState.data)] } := by
    unfold runBatch
    dsimp only
    rw [hd]
    dsimp only
    rw [if_pos (by decide : 1 < (successOf w3DraftState.data).length ∧ w3Editors ≠ [])]
    show runEditors (totalSteps w3Interns w3Editors != 0) "Jane Doe" "May 01, 2025"
      (successOf w3DraftState.data)
      [{ name := "Graham", behavior := .ok "Synthesized CV" }] w3DraftState = _
    simp only [runEditors]
    rw [editorStep_ok (totalSteps w3Interns w3Editors != 0) "Jane Doe" "May 01, 2025"
      (successOf w3DraftState.data) { name := "Graham", behavior := .ok "Synthesized CV" }
      w3DraftState "Synthesized CV" rfl]
    rfl
  have happ := C3_generic_mode_only "Jane Doe" "May 01, 2025" w3Interns w3Editors _ hrun
  have hmem : buildSynthesisPrompt "Jane Doe" "May 01, 2025" (successOf w3DraftState.data) ∈
      ({ w3DraftState with
        step := 3
        editorInvocations := ["Graham"]
        promptsBuilt :=
          [buildSynthesisPrompt "Jane Doe" "May 01, 2025" (successOf w3DraftState.data)] } :
          BatchState).promptsBuilt :=
    List.mem_singleton.mpr rfl
  have hres := happ _ hmem
  dsimp only at hres
  rw [hsucc] at hres
  exact hres

/-- C9.  A recorded draft is classified as Success for synthesis
eligibility exactly when its text does not start with the literal prefix
"Error:"; consequently a draft legitimately returned with a text
beginning "Error:" is excluded from the success set (and hence from
synthesis) even though no failure occurred. -/
theorem C9_error_prefixed_text_excluded :
    (∀ (data : List (String × CVData)) (e : String × CVData),
      e ∈ successOf data ↔ (e ∈ data ∧ pyStartsWith e.2.text "Error:" = false)) ∧
    (∀ (data : List (String × CVData)) (n : String) (d : CVData),
      (n, d) ∈ data → pyStartsWith d.text "Error:" = true →
        (n, d) ∉ successOf data) := by
  have h1 : ∀ (data : List (String × CVData)) (e : String × CVData),
      e ∈ successOf data ↔ (e ∈ data ∧ pyStartsWith e.2.text "Error:" = false) := by
    intro data e
    unfold successOf
    rw [List.mem_filter]
    simp
  refine ⟨h1, ?_⟩
  intro data n d hm hq hmem
  have h2 := (h1 data (n, d)).mp hmem
  simp [hq] at h2

/-- C9, witness: a draft whose text legitimately begins with "Error:" is
excluded from the success set while an ordinary draft is retained. -/
theorem C9_error_prefixed_text_excluded_witness :
    ("Sonar", (⟨"Error: the subject requested no biography be written.", "SA"⟩ : CVData)) ∉
      successOf c9Data ∧
    ("Gemini", (⟨"Draft CV B", "SB"⟩ : CVData)) ∈ successOf c9Data := by
  constructor
  · exact C9_error_prefixed_text_excluded.2 c9Data "Sonar"
      ⟨"Error: the subject requested no biography be written.", "SA"⟩
      (by decide) (by decide)
  · exact (C9_error_prefixed_text_excluded.1 c9Data
      ("Gemini", ⟨"Draft CV B", "SB"⟩)).mpr ⟨by decide, by decide⟩

/-- A member of a list occurs exactly once in its deduplication. -/
theorem count_dedup_of_mem {l : List String} {s : String} (h : s ∈ l) :
    l.dedup.count s = 1 := by
  rw [List.count_dedup]
  simp [h]

/-- Folding the anthropic citation collector over blocks that all lack
the citations attribute leaves the accumulator unchanged. -/
theorem anthropic_fold_no_citations (bs : List AnthropicBlock)
    (acc : List String) (h : ∀ b ∈ bs, b.citations = none) :
    bs.foldl
      (fun acc b =>
        if b.type = "text" then
          acc ++ ((b.citations.getD []).filterMap (fun c =>
            if optStrTruthy c.url && optStrTruthy c.title then
              some ("- [" ++ c.title.getD "" ++ "](" ++ c.url.getD "" ++ ")")
            else none))
        else acc) acc = acc := by
  induction bs generalizing acc with
  | nil => rfl
  | cons b t ih =>
      have hb := h b (List.mem_cons_self _ _)
      have ht := fun b2 hm => h b2 (List.mem_cons_of_mem _ hm)
      simp only [List.foldl_cons, hb, Option.getD_none, List.filterMap_nil,
        List.append_nil, ite_self]
      exact ih acc ht

/-- C7.  For each adapter kind that extracts citations: every raw
rendered line occurs exactly once in the displayed (de-duplicated) line
list; an absent citation container yields the sentinel value (the
caption, or the stored "No sources provided." string, or the
default/debug value for the openai branch) rather than an error; and
when lines exist the displayed sources are the joined de-duplicated
lines. -/
theorem C7_citation_dedup_and_missing_container :
    (∀ r : PerplexityResponse,
      (∀ s ∈ perplexitySourcesList r, (perplexityDisplayList r).count s = 1) ∧
      (perplexityProcessed r = [] →
        perplexitySourcesText r = .caption noCitableSourcesCaption ∧
        (perplexitySourcesText r).asStored = "No sources provided.") ∧
      (perplexitySourcesList r ≠ [] →
        perplexitySourcesText r =
          .str (perplexityHeader ++ String.intercalate "\n" (perplexityDisplayList r)))) ∧
    (∀ r : GoogleResponse,
      (∀ s ∈ googleSourcesList r, (googleDisplayList r).count s = 1) ∧
      (r.firstCandidateGroundingMetadata = none →
        googleSourcesText r = .caption noGroundingSourcesCaption ∧
        (googleSourcesText r).asStored = "No sources provided.") ∧
      (googleSourcesList r ≠ [] →
        googleSourcesText r =
          .str ("Grounding Sources:\n" ++
            String.intercalate "\n" (googleDisplayList r)))) ∧
    (∀ r : OpenAIResponse,
      (∀ s ∈ openaiSourcesList r, (openaiDisplayList r).count s = 1) ∧
      (r.output = none →
        openaiSourcesList r = [] ∧
        openaiSourcesText r =
          (if r.rawDebugStr.isEmpty then OpenAISourcesValue.caption
           else OpenAISourcesValue.captionStrPlusDebug (debugSuffix r.rawDebugStr))) ∧
      (openaiSourcesList r ≠ [] →
        openaiSourcesText r =
          .str ("Sources (OpenAI Optima):\n" ++
            String.intercalate "\n" (openaiDisplayList r)))) ∧
    (∀ r : AnthropicResponse,
      (∀ s ∈ anthropicSourcesList r, (anthropicDisplayList r).count s = 1) ∧
      ((∀ b ∈ r.content, b.citations = none) →
        anthropicSourcesList r = [] ∧
        anthropicSourcesText r = .caption noCitableSourcesCaption ∧
        (anthropicSourcesText r).asStored = "No sources provided.") ∧
      (anthropicSourcesList r ≠ [] →
        anthropicSourcesText r =
          .str ("Cited Sources:\n" ++
            String.intercalate "\n" (anthropicDisplayList r)))) := by
  refine ⟨?_, ?_, ?_, ?_⟩
  · intro r
    refine ⟨fun s hs => count_dedup_of_mem hs, ?_, ?_⟩
    · intro h
      unfold perplexitySourcesText
      rw [h]
      exact ⟨rfl, rfl⟩
    · intro hne
      have hproc : perplexityProcessed r ≠ [] := by
        intro h0
        apply hne
        unfold perplexitySourcesList
        rw [h0]
        rfl
      unfold perplexitySourcesText
      rw [if_neg (by simpa using hproc), if_neg (by simpa using hne)]
  · intro r
    refine ⟨fun s hs => count_dedup_of_mem hs, ?_, ?_⟩
    · intro h
      unfold googleSourcesText
      rw [h]
      exact ⟨rfl, rfl⟩
    · intro hne
      unfold googleSourcesText
      cases hgm : r.firstCandidateGroundingMetadata with
      | none =>
          exfalso
          apply hne
          unfold googleSourcesList
          rw [hgm]
      | some gm =>
          rw [if_neg (by simpa using hne)]
  · intro r
    refine ⟨fun s hs => count_dedup_of_mem hs, ?_, ?_⟩
    · intro h
      have hlist : openaiSourcesList r = [] := by
        unfold openaiSourcesList
        rw [h]
        rfl
      refine ⟨hlist, ?_⟩
      unfold openaiSourcesText
      rw [hlist]
      have hws : openaiWebSearchCallPresent r = false := by
        unfold openaiWebSearchCallPresent
        rw [h]
        rfl
      rw [hws]
      simp
    · intro hne
      unfold openaiSourcesText
      rw [if_pos (by simpa using hne)]
  · intro r
    refine ⟨fun s hs => count_dedup_of_mem hs, ?_, ?_⟩
    · intro h
      have hlist : anthropicSourcesList r = [] := by
        unfold anthropicSourcesList
        exact anthropic_fold_no_citations r.content [] h
      refine ⟨hlist, ?_, ?_⟩
      · unfold anthropicSourcesText
        rw [hlist]
        rfl
      · unfold anthropicSourcesText
        rw [hlist]
        rfl
    · intro hne
      unfold anthropicSourcesText
      rw [if_neg (by simpa using hne)]

/-- C7, witness: the dedup and missing-container facts at concrete
responses of each adapter kind (duplicate citations collapse to one
line; absent containers yield the caption sentinels). -/
theorem C7_citation_dedup_and_missing_container_witness :
    (perplexityDisplayList c7Perp).count (renderUrlLine "https://a.example") = 1 ∧
    perplexitySourcesText ⟨none, []⟩ = .caption noCitableSourcesCaption ∧
    (googleDisplayList c7Goog).count "- [T](https://g.example)" = 1 ∧
    googleSourcesText ⟨none⟩ = .caption noGroundingSourcesCaption ∧
    (openaiDisplayList c7Open).count "- [T](https://o.example)" = 1 ∧
    openaiSourcesList ⟨none, "raw"⟩ = [] ∧
    (anthropicDisplayList c7Anth).count "- [T](https://c.example)" = 1 ∧
    anthropicSourcesText ⟨[⟨"text", "Alpha", none⟩], "end_turn"⟩ =
      .caption noCitableSourcesCaption := by
  refine ⟨?_, ?_, ?_, ?_, ?_, ?_, ?_, ?_⟩
  · exact (C7_citation_dedup_and_missing_container.1 c7Perp).1 _ (by decide)
  · exact ((C7_citation_dedup_and_missing_container.1 ⟨none, []⟩).2.1 (by decide)).1
  · exact (C7_citation_dedup_and_missing_container.2.1 c7Goog).1 _ (by decide)
  · exact ((C7_citation_dedup_and_missing_container.2.1 ⟨none⟩).2.1 rfl).1
  · exact (C7_citation_dedup_and_missing_container.2.2.1 c7Open).1 _ (by decide)
  · exact ((C7_citation_dedup_and_missing_container.2.2.1 ⟨none, "raw"⟩).2.1 rfl).1
  · exact (C7_citation_dedup_and_missing_container.2.2.2 c7Anth).1 _ (by decide)
  · exact ((C7_citation_dedup_and_missing_container.2.2.2
      ⟨[⟨"text", "Alpha", none⟩], "end_turn"⟩).2.1 (by decide)).2.1

end Sherwood
